import Mathlib

/-!
Verification of the kv-cache calibration slice of this repository.

The executable parts of the repository that the claims touch are
`vllm/kv_quant/calib_dataloader.py` and `vllm/kv_quant/calibrate.py`;
they are embedded shallowly below.  The calibration engine proper
(`vllm/kv_quant/calibration.py`: `CalibrationContext`, `RunningStats`,
the quantization-parameter resolver) is imported by the driver but is
not part of the sources, so those components are modelled from the
specification (each such definition carries a doc comment starting
`Modelled from the spec:`).

Conventions: a torch tensor of shape (r, c) is a row-major
`List (List Int)`; Python floats are modelled as exact rationals `ℚ`;
Python's process-wide random generators (the `random` module, numpy,
torch) are modelled by explicitly threading a `GlobalRandomState`
value, with the generator implementation abstracted as a `PyRng`
parameter since it lives in external libraries.
-/

namespace KVQuant

/-! ## Dataset loaders: `vllm/kv_quant/calib_dataloader.py` -/

/-- Abstract interface of a deterministic pseudo-random generator with
state type `S`: `seedOf` builds the state that seeding with a given
integer produces, `next` advances the state, `extract` reads a natural
number out of the current state.  The concrete generator (Mersenne
twister etc.) lives in external libraries, so it is a parameter. -/
structure PyRng (S : Type) where
  seedOf : Nat → S
  next : S → S
  extract : S → Nat

/-- The process-wide mutable random state of the Python process:
the `random` module's generator, numpy's, and torch's. -/
structure GlobalRandomState (S : Type) where
  pyRandom : S
  npRandom : S
  torchRandom : S
deriving DecidableEq, Repr

/-- Embeds `calib_dataloader.py` lines 6-8: `set_seed(seed)` reseeds the
process-wide numpy generator and the process-wide torch generator. -/
def set_seed {S : Type} (R : PyRng S) (seed : Nat) (g : GlobalRandomState S) :
    GlobalRandomState S :=
  { g with npRandom := R.seedOf seed, torchRandom := R.seedOf seed }

/-- Embeds Python's `random.randint(lo, hi)` (both endpoints included):
draws from the given generator state and returns the advanced state. -/
def randint {S : Type} (R : PyRng S) (lo hi : Nat) (s : S) : Nat × S :=
  (lo + R.extract s % (hi + 1 - lo), R.next s)

/-- Embeds `calib_dataloader.py` lines 40-41: `tar = inp.clone();
tar[:, :-1] = -100` — every column but the last is masked to -100. -/
def maskAllButLast (xs : List Int) : List Int :=
  xs.mapIdx (fun i x => if i + 1 = xs.length then x else -100)

/-- Embeds the sampling loop of `get_wikitext2` (`calib_dataloader.py`
lines 36-42): `nsamples` times, draw `i = random.randint(0, N - seqlen)`
from the module-level generator and slice `input_ids[:, i:i+seqlen]`.
`tokens` is the single row of the tokenized corpus (shape `(1, N)`). -/
def wikitextSampleLoop {S : Type} (R : PyRng S) (tokens : List Int) (seqlen : Nat) :
    Nat → S → List (List Int × List Int) × S
  | 0, s => ([], s)
  | Nat.succ n, s =>
    let i := (randint R 0 (tokens.length - seqlen) s).1
    let s1 := (randint R 0 (tokens.length - seqlen) s).2
    let inp := (tokens.drop i).take seqlen
    ((inp, maskAllButLast inp) :: (wikitextSampleLoop R tokens seqlen n s1).1,
     (wikitextSampleLoop R tokens seqlen n s1).2)

/-- Embeds `get_wikitext2` (`calib_dataloader.py` lines 11-43): the call
`random.seed(seed)` on line 34 overwrites the module-level (process-wide)
generator state with the seeded state, after which the sampling loop
advances that same process-wide state.  Dataset download and
tokenization are external; `tokens` is the tokenized training corpus. -/
def get_wikitext2 {S : Type} (R : PyRng S) (tokens : List Int)
    (nsamples seed seqlen : Nat) (g : GlobalRandomState S) :
    List (List Int × List Int) × GlobalRandomState S :=
  ((wikitextSampleLoop R tokens seqlen nsamples (R.seedOf seed)).1,
   { g with pyRandom := (wikitextSampleLoop R tokens seqlen nsamples (R.seedOf seed)).2 })

/-- Embeds the collection loop of `get_pileval` (`calib_dataloader.py`
lines 248-262): skip lines whose encoding is longer than the literal 512
or empty, append the rest, and stop once `n_run == nsamples` fires
(checked after incrementing).  The argument is the dataset after the
external `dataset.shuffle(seed=seed)`, each element one encoded line. -/
def pilevalLoop (nsamples : Nat) : List (List Int) → Nat → List (List Int)
  | [], _ => []
  | e :: rest, k =>
    if 512 < e.length then pilevalLoop nsamples rest k
    else if e.length = 0 then pilevalLoop nsamples rest k
    else if k + 1 = nsamples then [e]
    else e :: pilevalLoop nsamples rest (k + 1)

/-- Embeds `get_pileval` (`calib_dataloader.py` lines 226-269): collect
samples, concatenate them along the sequence dimension (`torch.cat(dim=1)`
of `(1, k)` tensors is concatenation of the single rows), and split into
`cat.shape[1] // seqlen` consecutive blocks of width `seqlen`. -/
def get_pileval (shuffled : List (List Int)) (nsamples seqlen : Nat) :
    List (List Int) :=
  let cat := (pilevalLoop nsamples shuffled 0).flatten
  (List.range (cat.length / seqlen)).map
    (fun i => (cat.drop (i * seqlen)).take seqlen)

/-- Embeds the collection loop of `get_sharegpt` (`calib_dataloader.py`
lines 300-330): for each encoded conversation, skip it if its encoded
length differs from `seqlen` (line 322), otherwise keep it, and stop
once `n_collected == nsamples` fires (checked after incrementing).
The argument is the list of tokenizer encodings in permuted order
(shuffling and tokenization are external). -/
def sharegptLoop (nsamples seqlen : Nat) : List (List Int) → Nat → List (List Int)
  | [], _ => []
  | e :: rest, k =>
    if e.length = seqlen then
      if k + 1 = nsamples then [e]
      else e :: sharegptLoop nsamples seqlen rest (k + 1)
    else sharegptLoop nsamples seqlen rest k

/-- Embeds `get_sharegpt` (`calib_dataloader.py` lines 272-333). -/
def get_sharegpt (encs : List (List Int)) (nsamples seqlen : Nat) :
    List (List Int) :=
  sharegptLoop nsamples seqlen encs 0

/-- A concrete instance of the abstract generator interface, used to
evaluate the loaders on concrete inputs. -/
def natRng : PyRng Nat :=
  { seedOf := fun s => s, next := fun s => s + 1, extract := fun s => s }

/-- A concrete process-wide random state. -/
def g0 : GlobalRandomState Nat := { pyRandom := 7, npRandom := 7, torchRandom := 7 }

/-! ## Driver: `vllm/kv_quant/calibrate.py` -/

/-- Embeds `calibrate.py` lines 19-24: the fixed module-level map from a
model class name to the decoder-layer type name. -/
def LAYER_TYPE_MAP : List (String × String) :=
  [("InternLMForCausalLM", "InternLMDecoderLayer"),
   ("QWenLMHeadModel", "QWenBlock"),
   ("BaiChuanForCausalLM", "DecoderLayer"),
   ("LlamaForCausalLM", "LlamaDecoderLayer")]

/-- Embeds `calibrate.py` lines 25-30: the fixed module-level map from a
model class name to the normalization-layer type name. -/
def NORM_TYPE_MAP : List (String × String) :=
  [("InternLMForCausalLM", "InternLMRMSNorm"),
   ("QWenLMHeadModel", "RMSNorm"),
   ("BaiChuanForCausalLM", "RMSNorm"),
   ("LlamaForCausalLM", "LlamaRMSNorm")]

/-- Exact-key lookup in one of the two maps (Python dict indexing). -/
def mapLookup : List (String × String) → String → Option String
  | [], _ => none
  | (k, v) :: rest, key => if k = key then some v else mapLookup rest key

/-- Embeds `calibrate.py` lines 76-77: `layer_type` and `norm_type` are
obtained by indexing the two maps with `type(model).__name__`, the class
name of the loaded model object. -/
def instrumentationTypes (modelClassName : String) : Option String × Option String :=
  (mapLookup LAYER_TYPE_MAP modelClassName, mapLookup NORM_TYPE_MAP modelClassName)

/-- Embeds the signature of `calibrate` (`calibrate.py` lines 33-39):
everything the caller supplies.  There is no parameter naming an
attention-block or normalization layer type. -/
structure CalibrateArgs where
  model : String
  calib_dataset : String
  calib_samples : Nat
  calib_seqlen : Nat
  work_dir : String
  device : String
  dataset_path : Option String
deriving DecidableEq, Repr

/-- The instrumentation type names the driver ends up using, as a function
of the caller-supplied arguments and of the class name of the model object
that was loaded: per `calibrate.py` lines 76-77 only the class name enters. -/
def driverLayerTypes (_args : CalibrateArgs) (modelClassName : String) :
    Option String × Option String :=
  instrumentationTypes modelClassName

/-- A torch tensor of shape (r, c), row-major. -/
abbrev Tensor := List (List Int)

/-- Embeds `calibrate.py` lines 95-96: a loader item is either a bare
tensor (pileval/sharegpt) or an `(inp, tar)` pair (wikitext2/ptb/c4), and
the driver keeps `data` resp. `data[0]`. -/
def loaderItemTensor : Tensor ⊕ (Tensor × Tensor) → Tensor
  | Sum.inl t => t
  | Sum.inr p => p.1

/-- Embeds `calibrate.py` lines 94-97: `torch.cat` (along dim 0) of every
loader sample into the single tensor `all_data` — for row-major tensors,
concatenation of the row lists in loader order. -/
def driverAllData (loader : List (Tensor ⊕ (Tensor × Tensor))) : Tensor :=
  (loader.map loaderItemTensor).flatten

/-- Embeds `calibrate.py` lines 93-98: the driver issues exactly one
`calib_ctx.calibrate` call, whose argument is the concatenated tensor.
The returned list is the sequence of calibrate-call arguments. -/
def driverCalibrateCalls (loader : List (Tensor ⊕ (Tensor × Tensor))) : List Tensor :=
  [driverAllData loader]

/-! ## Calibration engine, modelled from the spec

`vllm/kv_quant/calibration.py` (imported by the driver on line 16) is not
part of the sources; the Statistics Accumulator, the Calibration Context
state machine and the Quantization Parameter Resolver below are modelled
from spec sections 3, 4.1, 4.3 and 4.4. -/

/-- Modelled from the spec: the `RunningStats` record of section 3 —
`count`, `min`, `max` per observed slice (`vllm/kv_quant/calibration.py`
is missing from the sources).  Before any value has been observed the
extrema are absent, hence the `Option`. -/
structure RunningStats where
  count : Nat
  min? : Option ℚ
  max? : Option ℚ
deriving DecidableEq, Repr

/-- Minimum of two optional extrema; an absent side is neutral. -/
def optMin : Option ℚ → Option ℚ → Option ℚ
  | none, b => b
  | some x, none => some x
  | some x, some y => some (min x y)

/-- Maximum of two optional extrema; an absent side is neutral. -/
def optMax : Option ℚ → Option ℚ → Option ℚ
  | none, b => b
  | some x, none => some x
  | some x, some y => some (max x y)

/-- Minimum entry of a tensor slice, absent for the empty slice. -/
def sliceMin : List ℚ → Option ℚ
  | [] => none
  | x :: xs => some (xs.foldl min x)

/-- Maximum entry of a tensor slice, absent for the empty slice. -/
def sliceMax : List ℚ → Option ℚ
  | [] => none
  | x :: xs => some (xs.foldl max x)

/-- The all-empty record a fresh observation point starts from. -/
def emptyStats : RunningStats := { count := 0, min? := none, max? := none }

/-- Modelled from the spec: the Statistics Accumulator's
`observe(tensor_slice)` of section 4.1 (`vllm/kv_quant/calibration.py` is
missing from the sources) — widen the extrema by the slice's extrema and
count one more observed batch. -/
def observe (s : RunningStats) (slice : List ℚ) : RunningStats :=
  { count := s.count + 1,
    min? := optMin s.min? (sliceMin slice),
    max? := optMax s.max? (sliceMax slice) }

/-- Modelled from the spec: `RunningStats.merge` of sections 3 and 4.1
(`vllm/kv_quant/calibration.py` is missing from the sources) — combine two
independently accumulated records, exactly on min/max, additively on count. -/
def RunningStats.merge (a b : RunningStats) : RunningStats :=
  { count := a.count + b.count,
    min? := optMin a.min? b.min?,
    max? := optMax a.max? b.max? }

/-- Modelled from the spec: the Calibration Context states of section 4.3. -/
inductive CalibState
  | idle
  | attached
  | running
  | finalized
  | detached
deriving DecidableEq, Repr

/-- Modelled from the spec: the error taxonomy of section 7 (the part the
claims touch). -/
inductive CalibError
  | NotFinalizedError
  | CalibrationRunError
  | NoMatchingLayersError
deriving DecidableEq, Repr

/-- Modelled from the spec: the Calibration Context of section 4.3
(`vllm/kv_quant/calibration.py` is missing from the sources).  `points` is
the observation registry the instrumentation leaves on the model, `stats`
holds one `RunningStats` per attached layer handle, and
`finalizedCleanly` records whether the `Running → Finalized` transition
was ever taken, i.e. whether all batches were consumed without error. -/
structure Ctx where
  state : CalibState
  points : List Nat
  stats : List RunningStats
  finalizedCleanly : Bool
deriving DecidableEq, Repr

/-- Modelled from the spec: `attach` (sections 4.2 and 4.3, `Idle →
Attached`) — one observation point and one fresh stats record per matched
layer. -/
def attachCtx (numLayers : Nat) : Ctx :=
  { state := CalibState.attached,
    points := List.range numLayers,
    stats := List.replicate numLayers emptyStats,
    finalizedCleanly := false }

/-- Modelled from the spec: one forward pass (section 4.3) — every
attached observation point sees the batch and updates its record. -/
def forwardPass (c : Ctx) (batch : List ℚ) : Ctx :=
  { c with stats := c.stats.map (fun s => observe s batch) }

/-- Modelled from the spec: the batch loop of `calibrate(batches)`
(section 4.3) — batches are consumed strictly sequentially in order, one
forward pass per batch; `failAt = some k` injects a forward-pass
exception at the k-th batch, which aborts the loop with
`CalibrationRunError`. -/
def calibrateLoop : Ctx → List (List ℚ) → Option Nat → Ctx × Option CalibError
  | c, [], _ => (c, none)
  | c, _ :: _, some 0 => (c, some CalibError.CalibrationRunError)
  | c, b :: bs, some (k + 1) => calibrateLoop (forwardPass c b) bs (some k)
  | c, b :: bs, none => calibrateLoop (forwardPass c b) bs none

/-- Modelled from the spec: `calibrate(batches)` (section 4.3) — run the
batch loop in the `Running` state; only when every batch was consumed
without error is the `Running → Finalized` transition taken and the
statistics frozen. -/
def calibrateCtx (c : Ctx) (batches : List (List ℚ)) (failAt : Option Nat) :
    Ctx × Option CalibError :=
  let r := calibrateLoop { c with state := CalibState.running } batches failAt
  match r.2 with
  | none => ({ r.1 with state := CalibState.finalized, finalizedCleanly := true }, none)
  | some e => (r.1, some e)

/-- Modelled from the spec: `detach` (sections 4.2 and 4.3) — remove every
observation point created by `attach`; total, and a second call changes
nothing. -/
def detachCtx (c : Ctx) : Ctx :=
  { c with points := [], state := CalibState.detached }

/-- Modelled from the spec: one scoped calibration run (section 4.3) —
enter by attaching, run `calibrate`, and leave the scope through `detach`
on every exit path, whether the batch loop succeeded or raised. -/
def runScoped (numLayers : Nat) (batches : List (List ℚ)) (failAt : Option Nat) :
    Ctx × Option CalibError :=
  let r := calibrateCtx (attachCtx numLayers) batches failAt
  (detachCtx r.1, r.2)

/-- Modelled from the spec: the quantization scheme of section 3. -/
inductive Scheme
  | symmetric
  | asymmetric
deriving DecidableEq, Repr

/-- Modelled from the spec: the granularity of section 3. -/
inductive Granularity
  | per_tensor
  | per_channel
deriving DecidableEq, Repr

/-- Modelled from the spec: the resolved `QuantParams` of section 3. -/
structure QuantParams where
  scale : ℚ
  zeroPoint : ℤ
  bitWidth : Nat
  scheme : Scheme
  granularity : Granularity
deriving DecidableEq, Repr

/-- Modelled from the spec: the deliberate epsilon floor of section 4.4
for the degenerate `max == min` case (the spec fixes no numeric value,
only that it is a small positive constant). -/
def epsilonFloor : ℚ := 1 / 1000000

/-- Modelled from the spec: the Quantization Parameter Resolver's
`resolve(stats, scheme, granularity, bit_width)` of section 4.4
(`vllm/kv_quant/calibration.py` is missing from the sources).
Symmetric: `scale = max(|min|, |max|) / (2^(bit_width-1) - 1)`,
`zero_point = 0`.  Asymmetric: `scale = (max - min) / (2^bit_width - 1)`,
`zero_point = round(-min / scale)` clamped to `[0, 2^bit_width - 1]`.
A degenerate (zero) scale is floored to `epsilonFloor`.  Stats with no
observed extrema resolve to nothing. -/
def resolve (s : RunningStats) (scheme : Scheme) (gran : Granularity)
    (bitWidth : Nat) : Option QuantParams :=
  match s.min?, s.max? with
  | some mn, some mx =>
    match scheme with
    | Scheme.symmetric =>
      let raw := max |mn| |mx| / ((2 : ℚ) ^ (bitWidth - 1) - 1)
      some { scale := if raw = 0 then epsilonFloor else raw,
             zeroPoint := 0, bitWidth := bitWidth,
             scheme := Scheme.symmetric, granularity := gran }
    | Scheme.asymmetric =>
      let raw := (mx - mn) / ((2 : ℚ) ^ bitWidth - 1)
      let scale := if raw = 0 then epsilonFloor else raw
      some { scale := scale,
             zeroPoint := max 0 (min (round (-mn / scale)) ((2 : ℤ) ^ bitWidth - 1)),
             bitWidth := bitWidth,
             scheme := Scheme.asymmetric, granularity := gran }
  | _, _ => none

/-- Modelled from the spec: the exported `CalibrationManifest` of
section 3 — resolved parameters keyed by layer index, plus corpus-size
metadata. -/
structure CalibrationManifest where
  entries : List (Nat × Option QuantParams)
  corpusSize : Nat
deriving DecidableEq, Repr

/-- Modelled from the spec: the manifest a context's frozen statistics
resolve to — parameters per layer index plus corpus-size metadata. -/
def manifestOf (c : Ctx) : CalibrationManifest :=
  { entries := (List.range c.stats.length).zip
      (c.stats.map (fun s => resolve s Scheme.symmetric Granularity.per_tensor 8)),
    corpusSize := (c.stats.map RunningStats.count).foldr max 0 }

/-- Modelled from the spec: `export` (sections 4.3 and 7) — only valid in
the `Finalized` or `Detached` state and only when `Finalized` was reached
cleanly; in every other case it fails with `NotFinalizedError` and
produces no manifest at all. -/
def exportCtx (c : Ctx) : Except CalibError CalibrationManifest :=
  if (c.state = CalibState.finalized ∨ c.state = CalibState.detached)
      ∧ c.finalizedCleanly = true then
    Except.ok (manifestOf c)
  else
    Except.error CalibError.NotFinalizedError

/-! ## Helper lemmas -/

lemma optMin_comm (a b : Option ℚ) : optMin a b = optMin b a := by
  cases a <;> cases b <;> simp [optMin, min_comm]

lemma optMin_assoc (a b c : Option ℚ) :
    optMin (optMin a b) c = optMin a (optMin b c) := by
  cases a <;> cases b <;> cases c <;> simp [optMin, min_assoc]

lemma optMax_comm (a b : Option ℚ) : optMax a b = optMax b a := by
  cases a <;> cases b <;> simp [optMax, max_comm]

lemma optMax_assoc (a b c : Option ℚ) :
    optMax (optMax a b) c = optMax a (optMax b c) := by
  cases a <;> cases b <;> cases c <;> simp [optMax, max_assoc]

lemma optMin_left_comm (a b c : Option ℚ) :
    optMin a (optMin b c) = optMin b (optMin a c) := by
  rw [← optMin_assoc, optMin_comm a b, optMin_assoc]

lemma optMax_left_comm (a b c : Option ℚ) :
    optMax a (optMax b c) = optMax b (optMax a c) := by
  rw [← optMax_assoc, optMax_comm a b, optMax_assoc]

lemma calibrateLoop_none (c : Ctx) (bs : List (List ℚ)) :
    calibrateLoop c bs none = (bs.foldl forwardPass c, none) := by
  induction bs generalizing c with
  | nil => rfl
  | cons b bs ih => simpa [calibrateLoop] using ih (forwardPass c b)

lemma foldl_forwardPass (bs : List (List ℚ)) : ∀ c : Ctx,
    bs.foldl forwardPass c
      = { c with stats := bs.foldl (fun l b => l.map (fun s => observe s b)) c.stats } := by
  induction bs with
  | nil => intro c; rfl
  | cons b bs ih => intro c; simpa [forwardPass] using ih (forwardPass c b)

lemma foldl_map_replicate (bs : List (List ℚ)) : ∀ (n : Nat) (s : RunningStats),
    bs.foldl (fun l b => l.map (fun t => observe t b)) (List.replicate n s)
      = List.replicate n (bs.foldl observe s) := by
  induction bs with
  | nil => intro n s; rfl
  | cons b bs ih => intro n s; simpa [List.map_replicate] using ih n (observe s b)

lemma runScoped_none_stats (n : Nat) (bs : List (List ℚ)) :
    (runScoped n bs none).1.stats = List.replicate n (bs.foldl observe emptyStats) := by
  simp [runScoped, calibrateCtx, calibrateLoop_none, detachCtx, attachCtx,
        foldl_forwardPass, foldl_map_replicate]

lemma calibrateLoop_fail (bs : List (List ℚ)) : ∀ (c : Ctx) (k : Nat),
    k < bs.length →
    (calibrateLoop c bs (some k)).2 = some CalibError.CalibrationRunError
    ∧ (calibrateLoop c bs (some k)).1.finalizedCleanly = c.finalizedCleanly := by
  induction bs with
  | nil => intro c k h; simp at h
  | cons b bs ih =>
    intro c k h
    cases k with
    | zero => exact ⟨rfl, rfl⟩
    | succ k =>
      have h2 : k < bs.length := by simpa using h
      simpa [calibrateLoop, forwardPass] using ih (forwardPass c b) k h2

lemma export_ok_of (c : Ctx) (h1 : c.state = CalibState.detached)
    (h2 : c.finalizedCleanly = true) :
    ∃ m, exportCtx c = Except.ok m := by
  refine ⟨manifestOf c, ?_⟩
  simp [exportCtx, h1, h2]

lemma foldl_min_le_foldl_max (xs : List ℚ) : ∀ a b : ℚ, a ≤ b →
    xs.foldl min a ≤ xs.foldl max b := by
  induction xs with
  | nil => intro a b h; exact h
  | cons x xs ih =>
    intro a b h
    exact ih _ _ (le_trans (min_le_left a x) (le_trans h (le_max_left b x)))

lemma slice_min_le_max (b : List ℚ) (h : b ≠ []) :
    ∃ m M, sliceMin b = some m ∧ sliceMax b = some M ∧ m ≤ M := by
  cases b with
  | nil => exact absurd rfl h
  | cons x xs =>
    exact ⟨_, _, rfl, rfl, foldl_min_le_foldl_max xs x x le_rfl⟩

lemma observe_widens (s : RunningStats) (slice : List ℚ) :
    (∀ m0, s.min? = some m0 → ∃ m1, (observe s slice).min? = some m1 ∧ m1 ≤ m0)
    ∧ (∀ M0, s.max? = some M0 → ∃ M1, (observe s slice).max? = some M1 ∧ M0 ≤ M1) := by
  constructor
  · intro m0 h
    cases hs : sliceMin slice with
    | none => exact ⟨m0, by simp [observe, h, hs, optMin], le_refl m0⟩
    | some v => exact ⟨min m0 v, by simp [observe, h, hs, optMin], min_le_left _ _⟩
  · intro M0 h
    cases hs : sliceMax slice with
    | none => exact ⟨M0, by simp [observe, h, hs, optMax], le_refl M0⟩
    | some v => exact ⟨max M0 v, by simp [observe, h, hs, optMax], le_max_left _ _⟩

lemma observe_keeps_inv (s : RunningStats) (b : List ℚ)
    (hs : ∃ m M, s.min? = some m ∧ s.max? = some M ∧ m ≤ M) :
    ∃ m M, (observe s b).min? = some m ∧ (observe s b).max? = some M ∧ m ≤ M := by
  obtain ⟨m, M, h1, h2, h3⟩ := hs
  cases b with
  | nil =>
    exact ⟨m, M, by simp [observe, sliceMin, optMin, h1],
      by simp [observe, sliceMax, optMax, h2], h3⟩
  | cons x xs =>
    refine ⟨min m (xs.foldl min x), max M (xs.foldl max x),
      by simp [observe, sliceMin, optMin, h1],
      by simp [observe, sliceMax, optMax, h2], ?_⟩
    exact le_trans (min_le_left _ _) (le_trans h3 (le_max_left _ _))

lemma foldl_observe_inv (bs : List (List ℚ)) : ∀ s : RunningStats,
    (∃ m M, s.min? = some m ∧ s.max? = some M ∧ m ≤ M) →
    ∃ m M, (bs.foldl observe s).min? = some m ∧ (bs.foldl observe s).max? = some M
      ∧ m ≤ M ∧ (bs.foldl observe s).count = s.count + bs.length := by
  induction bs with
  | nil =>
    intro s hs
    obtain ⟨m, M, h1, h2, h3⟩ := hs
    exact ⟨m, M, h1, h2, h3, rfl⟩
  | cons b bs ih =>
    intro s hs
    obtain ⟨m, M, h1, h2, h3, h4⟩ := ih (observe s b) (observe_keeps_inv s b hs)
    refine ⟨m, M, ?_, ?_, h3, ?_⟩
    · rw [List.foldl_cons]; exact h1
    · rw [List.foldl_cons]; exact h2
    · rw [List.foldl_cons, h4]
      simp only [observe, List.length_cons]
      omega

lemma wikitextSampleLoop_spec {S : Type} (R : PyRng S) (tokens : List Int)
    (seqlen : Nat) (h : seqlen ≤ tokens.length) : ∀ (n : Nat) (s : S),
    (wikitextSampleLoop R tokens seqlen n s).1.length = n
    ∧ ∀ p ∈ (wikitextSampleLoop R tokens seqlen n s).1, p.1.length = seqlen := by
  intro n
  induction n with
  | zero => intro s; exact ⟨rfl, by simp [wikitextSampleLoop]⟩
  | succ n ih =>
    intro s
    constructor
    · simpa [wikitextSampleLoop] using (ih _).1
    · intro p hp
      simp only [wikitextSampleLoop, List.mem_cons] at hp
      rcases hp with hp | hp
      · have hmod : R.extract s % (tokens.length - seqlen + 1 - 0)
            < tokens.length - seqlen + 1 - 0 := Nat.mod_lt _ (by omega)
        rw [hp]
        simp only [randint, List.length_take, List.length_drop]
        omega
      · exact (ih _).2 p hp

lemma get_pileval_blocks (shuffled : List (List Int)) (nsamples seqlen : Nat) :
    ∀ b ∈ get_pileval shuffled nsamples seqlen, b.length = seqlen := by
  intro b hb
  simp only [get_pileval, List.mem_map, List.mem_range] at hb
  obtain ⟨i, hi, rfl⟩ := hb
  have h1 : (i + 1) * ((pilevalLoop nsamples shuffled 0).flatten.length / seqlen)
      ≤ (i + 1) * ((pilevalLoop nsamples shuffled 0).flatten.length / seqlen) := le_rfl
  have h2 : (i + 1) * seqlen ≤ (pilevalLoop nsamples shuffled 0).flatten.length := by
    calc (i + 1) * seqlen
        ≤ ((pilevalLoop nsamples shuffled 0).flatten.length / seqlen) * seqlen :=
          Nat.mul_le_mul_right seqlen (Nat.succ_le_of_lt hi)
      _ ≤ (pilevalLoop nsamples shuffled 0).flatten.length := Nat.div_mul_le_self _ _
  rw [Nat.succ_mul] at h2
  simp only [List.length_take, List.length_drop]
  omega

lemma sharegptLoop_bound (nsamples seqlen : Nat) :
    ∀ (encs : List (List Int)) (k : Nat), k < nsamples →
    (sharegptLoop nsamples seqlen encs k).length ≤ nsamples - k := by
  intro encs
  induction encs with
  | nil => intro k h; simp [sharegptLoop]
  | cons e rest ih =>
    intro k h
    by_cases he : e.length = seqlen
    · by_cases hk : k + 1 = nsamples
      · simp only [sharegptLoop, he, if_pos, hk, if_true, List.length_cons,
          List.length_nil]
        omega
      · have h2 : k + 1 < nsamples := by omega
        have h3 := ih (k + 1) h2
        simp only [sharegptLoop, he, if_pos, hk, if_false, List.length_cons]
        omega
    · simpa [sharegptLoop, he] using ih k h

lemma sharegptLoop_members (nsamples seqlen : Nat) :
    ∀ (encs : List (List Int)) (k : Nat),
    ∀ s ∈ sharegptLoop nsamples seqlen encs k, s.length = seqlen := by
  intro encs
  induction encs with
  | nil => intro k s hs; simp [sharegptLoop] at hs
  | cons e rest ih =>
    intro k s hs
    by_cases he : e.length = seqlen
    · by_cases hk : k + 1 = nsamples
      · simp only [sharegptLoop, he, if_pos, hk, if_true, List.mem_singleton] at hs
        rw [hs]; exact he
      · simp only [sharegptLoop, he, if_pos, hk, if_false, List.mem_cons] at hs
        rcases hs with rfl | hs
        · exact he
        · exact ih (k + 1) s hs
    · simp only [sharegptLoop, he, if_neg, if_false] at hs
      exact ih k s hs

/-- Concrete statistics record used to evaluate the merge theorem. -/
def statsA : RunningStats := { count := 3, min? := some (-3), max? := some 5 }

/-- Concrete statistics record used to evaluate the merge theorem. -/
def statsB : RunningStats := { count := 1, min? := some (-2), max? := some 4 }

/-! ## Claim theorems -/

/-- C1 (counterexample): the claim says the driver feeds the calibration
loader's samples to `CalibrationContext.calibrate` one call per batch in
sequence order rather than combining them, i.e. that the sequence of
calibrate-call arguments is the sample list itself; on the loader
`[[[1]], [[2]]]` the driver instead issues the single combined call
`[[[1], [2]]]`. -/
theorem driver_combines_batches :
    driverCalibrateCalls [Sum.inl [[1]], Sum.inl [[2]]]
      ≠ ([Sum.inl [[1]], Sum.inl [[2]]] :
          List (Tensor ⊕ (Tensor × Tensor))).map loaderItemTensor := by
  decide

/-- C1 (amended): `CalibrationContext.calibrate`, modelled from the spec,
consumes its batch sequence strictly sequentially in order — the final
statistics of a clean run are the left fold of `observe` over the batches
— but the driver concatenates all loader samples into one tensor and
issues exactly one calibrate call with the combined data, not one call
per sample. -/
theorem driver_single_call_and_sequential_model :
    ∀ (loader : List (Tensor ⊕ (Tensor × Tensor))) (n : Nat) (bs : List (List ℚ)),
    driverCalibrateCalls loader = [(loader.map loaderItemTensor).flatten]
    ∧ (driverCalibrateCalls loader).length = 1
    ∧ (runScoped n bs none).1.stats = List.replicate n (bs.foldl observe emptyStats) :=
  fun _ n bs => ⟨rfl, rfl, runScoped_none_stats n bs⟩

/-- C2 (counterexample): the claim says the attention-block and
normalization type names are never derived from the model object, so with
identical caller-supplied arguments they could not differ between two
loaded models; yet the driver derives them from the model's class name,
and two models under the same arguments yield different identifiers. -/
theorem layer_types_depend_on_model :
    driverLayerTypes
        { model := "m", calib_dataset := "c4", calib_samples := 128,
          calib_seqlen := 2048, work_dir := "./work_dir", device := "cuda",
          dataset_path := none } "LlamaForCausalLM"
      ≠ driverLayerTypes
          { model := "m", calib_dataset := "c4", calib_samples := 128,
            calib_seqlen := 2048, work_dir := "./work_dir", device := "cuda",
            dataset_path := none } "QWenLMHeadModel" := by
  decide

/-- C2 (amended): the two instrumentation type names are not supplied by
the caller (they do not depend on any `calibrate` argument); they are
auto-detected from the model object by exact lookup of its class name in
the fixed module-level maps `LAYER_TYPE_MAP` and `NORM_TYPE_MAP`. -/
theorem layer_types_from_class_name :
    (∀ (a1 a2 : CalibrateArgs) (c : String),
      driverLayerTypes a1 c = driverLayerTypes a2 c)
    ∧ instrumentationTypes "InternLMForCausalLM"
        = (some "InternLMDecoderLayer", some "InternLMRMSNorm")
    ∧ instrumentationTypes "QWenLMHeadModel" = (some "QWenBlock", some "RMSNorm")
    ∧ instrumentationTypes "BaiChuanForCausalLM" = (some "DecoderLayer", some "RMSNorm")
    ∧ instrumentationTypes "LlamaForCausalLM"
        = (some "LlamaDecoderLayer", some "LlamaRMSNorm") :=
  ⟨fun _ _ _ => rfl, by decide, by decide, by decide, by decide⟩

lemma resolve_symmetric_eq (cnt : Nat) (mn mx : ℚ) (b : Nat) (hb : 2 ≤ b)
    (hnz : ¬(mn = 0 ∧ mx = 0)) :
    resolve { count := cnt, min? := some mn, max? := some mx }
        Scheme.symmetric Granularity.per_tensor b
      = some { scale := max |mn| |mx| / ((2 : ℚ) ^ (b - 1) - 1), zeroPoint := 0,
               bitWidth := b, scheme := Scheme.symmetric,
               granularity := Granularity.per_tensor } := by
  have hpow : (1 : ℚ) < 2 ^ (b - 1) := by
    have hb1 : b - 1 ≠ 0 := by omega
    exact one_lt_pow₀ (by norm_num) hb1
  have hden : ((2 : ℚ) ^ (b - 1) - 1) ≠ 0 := ne_of_gt (sub_pos.mpr hpow)
  have hnum : max |mn| |mx| ≠ 0 := by
    intro h0
    have h1 : |mn| ≤ 0 := h0 ▸ le_max_left |mn| |mx|
    have h2 : |mx| ≤ 0 := h0 ▸ le_max_right |mn| |mx|
    exact hnz ⟨abs_eq_zero.mp (le_antisymm h1 (abs_nonneg mn)),
               abs_eq_zero.mp (le_antisymm h2 (abs_nonneg mx))⟩
  have hraw : max |mn| |mx| / ((2 : ℚ) ^ (b - 1) - 1) ≠ 0 := div_ne_zero hnum hden
  simp [resolve, hraw]

/-- C3: under the symmetric scheme, `resolve` on stats with recorded
extrema `min = mn`, `max = mx` and bit width `b` (at least 2, outside the
degenerate all-zero case that the spec's epsilon-floor policy overrides)
returns `scale = max(|mn|, |mx|) / (2^(b-1) - 1)` and `zero_point = 0`;
in particular `min = -3`, `max = 5`, `b = 8` yields `scale = 5/127`,
`zero_point = 0`. -/
theorem resolve_symmetric_correct :
    (∀ (cnt : Nat) (mn mx : ℚ) (b : Nat), 2 ≤ b → ¬(mn = 0 ∧ mx = 0) →
      resolve { count := cnt, min? := some mn, max? := some mx }
          Scheme.symmetric Granularity.per_tensor b
        = some { scale := max |mn| |mx| / ((2 : ℚ) ^ (b - 1) - 1), zeroPoint := 0,
                 bitWidth := b, scheme := Scheme.symmetric,
                 granularity := Granularity.per_tensor })
    ∧ resolve { count := 1, min? := some (-3), max? := some 5 }
          Scheme.symmetric Granularity.per_tensor 8
        = some { scale := 5 / 127, zeroPoint := 0, bitWidth := 8,
                 scheme := Scheme.symmetric, granularity := Granularity.per_tensor } := by
  refine ⟨resolve_symmetric_eq, ?_⟩
  rw [resolve_symmetric_eq 1 (-3) 5 8 (by norm_num) (by norm_num)]
  norm_num

/-- C3 witness: the general statement applied at `min = -1`, `max = 2`,
`bit_width = 8`. -/
theorem resolve_symmetric_witness :
    resolve { count := 1, min? := some (-1), max? := some 2 }
        Scheme.symmetric Granularity.per_tensor 8
      = some { scale := max |(-1 : ℚ)| |(2 : ℚ)| / ((2 : ℚ) ^ (8 - 1) - 1),
               zeroPoint := 0, bitWidth := 8, scheme := Scheme.symmetric,
               granularity := Granularity.per_tensor } :=
  resolve_symmetric_correct.1 1 (-1) 2 8 (by norm_num) (by norm_num)

lemma resolve_asymmetric_eq (cnt : Nat) (mn mx : ℚ) (b : Nat) (hlt : mn < mx)
    (hb : 1 ≤ b) :
    resolve { count := cnt, min? := some mn, max? := some mx }
        Scheme.asymmetric Granularity.per_tensor b
      = some { scale := (mx - mn) / ((2 : ℚ) ^ b - 1),
               zeroPoint := max 0 (min (round (-mn / ((mx - mn) / ((2 : ℚ) ^ b - 1))))
                 ((2 : ℤ) ^ b - 1)),
               bitWidth := b, scheme := Scheme.asymmetric,
               granularity := Granularity.per_tensor } := by
  have hpow : (1 : ℚ) < 2 ^ b := by
    have hb1 : b ≠ 0 := by omega
    exact one_lt_pow₀ (by norm_num) hb1
  have hden : ((2 : ℚ) ^ b - 1) ≠ 0 := ne_of_gt (sub_pos.mpr hpow)
  have hnum : mx - mn ≠ 0 := ne_of_gt (sub_pos.mpr hlt)
  have hraw : (mx - mn) / ((2 : ℚ) ^ b - 1) ≠ 0 := div_ne_zero hnum hden
  simp [resolve, hraw]

/-- C4: under the asymmetric scheme, `resolve` on stats with recorded
extrema `min = mn < max = mx` and bit width `b ≥ 1` returns
`scale = (mx - mn) / (2^b - 1)` and
`zero_point = round(-mn / scale)` clamped to `[0, 2^b - 1]`;
in particular `min = -3`, `max = 5`, `b = 8` yields `scale = 8/255` and
`zero_point = 96`, which lies in `[0, 255]`. -/
theorem resolve_asymmetric_correct :
    (∀ (cnt : Nat) (mn mx : ℚ) (b : Nat), mn < mx → 1 ≤ b →
      resolve { count := cnt, min? := some mn, max? := some mx }
          Scheme.asymmetric Granularity.per_tensor b
        = some { scale := (mx - mn) / ((2 : ℚ) ^ b - 1),
                 zeroPoint := max 0 (min (round (-mn / ((mx - mn) / ((2 : ℚ) ^ b - 1))))
                   ((2 : ℤ) ^ b - 1)),
                 bitWidth := b, scheme := Scheme.asymmetric,
                 granularity := Granularity.per_tensor })
    ∧ (resolve { count := 1, min? := some (-3), max? := some 5 }
          Scheme.asymmetric Granularity.per_tensor 8
        = some { scale := 8 / 255, zeroPoint := 96, bitWidth := 8,
                 scheme := Scheme.asymmetric, granularity := Granularity.per_tensor }
      ∧ (0 : ℤ) ≤ 96 ∧ (96 : ℤ) ≤ 255) := by
  refine ⟨resolve_asymmetric_eq, ?_, by norm_num, by norm_num⟩
  rw [resolve_asymmetric_eq 1 (-3) 5 8 (by norm_num) (by norm_num)]
  norm_num [round_eq]

/-- C4 witness: the general statement applied at `min = -3`, `max = 5`,
`bit_width = 8`. -/
theorem resolve_asymmetric_witness :
    resolve { count := 1, min? := some (-3), max? := some 5 }
        Scheme.asymmetric Granularity.per_tensor 8
      = some { scale := ((5 : ℚ) - (-3)) / ((2 : ℚ) ^ 8 - 1),
               zeroPoint := max 0 (min (round (-(-3 : ℚ) / (((5 : ℚ) - (-3)) / ((2 : ℚ) ^ 8 - 1))))
                 ((2 : ℤ) ^ 8 - 1)),
               bitWidth := 8, scheme := Scheme.asymmetric,
               granularity := Granularity.per_tensor } :=
  resolve_asymmetric_correct.1 1 (-3) 5 8 (by norm_num) (by norm_num)

/-- C5: for every scoped calibration run — any number of layers, any
batch sequence, and any exit path, including a forward-pass exception at
any batch index — the observation registry is empty when control returns
to the caller, so no instrumentation remains on the model, and a further
`detach` call is a no-op that raises no error (`detachCtx` is a total
function and idempotent). -/
theorem detach_on_all_paths : ∀ (n : Nat) (bs : List (List ℚ)) (failAt : Option Nat),
    (runScoped n bs failAt).1.points = []
    ∧ (runScoped n bs failAt).1.state = CalibState.detached
    ∧ detachCtx (runScoped n bs failAt).1 = (runScoped n bs failAt).1 :=
  fun _ _ _ => ⟨rfl, rfl, rfl⟩

/-- C6: `export` fails with `NotFinalizedError` in every state earlier
than `Finalized` (Idle, Attached, Running); a run aborted by a
forward-pass exception never yields a manifest, not even a partial one
(its export also fails with `NotFinalizedError`); and a manifest is
produced exactly when the `Finalized` state was reached cleanly. -/
theorem export_requires_finalize :
    (∀ c : Ctx, (c.state = CalibState.idle ∨ c.state = CalibState.attached
        ∨ c.state = CalibState.running) →
      exportCtx c = Except.error CalibError.NotFinalizedError)
    ∧ (∀ (n : Nat) (bs : List (List ℚ)) (k : Nat), k < bs.length →
        exportCtx (runScoped n bs (some k)).1
          = Except.error CalibError.NotFinalizedError)
    ∧ (∀ (n : Nat) (bs : List (List ℚ)),
        ∃ m, exportCtx (runScoped n bs none).1 = Except.ok m) := by
  refine ⟨?_, ?_, ?_⟩
  · intro c h
    rcases h with h | h | h <;> simp [exportCtx, h]
  · intro n bs k h
    obtain ⟨h2, hflag⟩ :=
      calibrateLoop_fail bs { attachCtx n with state := CalibState.running } k h
    simp only [runScoped, calibrateCtx, h2]
    simp only [attachCtx] at hflag ⊢
    simp [exportCtx, detachCtx, hflag]
  · intro n bs
    apply export_ok_of
    · rfl
    · simp [runScoped, calibrateCtx, calibrateLoop_none, detachCtx, foldl_forwardPass]

/-- C6 witness: `export` on a freshly attached context (state `Attached`)
fails; after a run whose forward pass raises on batch 0 of 2 it fails;
after a clean run over the same corpus it returns a manifest. -/
theorem export_requires_finalize_witness :
    exportCtx (attachCtx 2) = Except.error CalibError.NotFinalizedError
    ∧ exportCtx (runScoped 1 [[1], [2]] (some 0)).1
        = Except.error CalibError.NotFinalizedError
    ∧ ∃ m, exportCtx (runScoped 1 [[1], [2]] none).1 = Except.ok m :=
  ⟨export_requires_finalize.1 (attachCtx 2) (Or.inr (Or.inl rfl)),
   export_requires_finalize.2.1 1 [[1], [2]] 0 (by norm_num),
   export_requires_finalize.2.2 1 [[1], [2]]⟩

/-- C7: `RunningStats.merge` is associative and commutative on the
(min, max, count) fields — `merge(merge(a,b),c) = merge(a,merge(b,c)) =
merge(b,merge(a,c))` — and merging is exact for min and max: when both
records carry extrema the merged extrema are exactly the minimum of the
mins and the maximum of the maxes. -/
theorem merge_assoc_comm_exact : ∀ a b c : RunningStats,
    (a.merge b).merge c = a.merge (b.merge c)
    ∧ a.merge (b.merge c) = b.merge (a.merge c)
    ∧ a.merge b = b.merge a
    ∧ (∀ x y, a.min? = some x → b.min? = some y → (a.merge b).min? = some (min x y))
    ∧ (∀ x y, a.max? = some x → b.max? = some y → (a.merge b).max? = some (max x y)) := by
  intro a b c
  refine ⟨?_, ?_, ?_, ?_, ?_⟩
  · simp [RunningStats.merge, RunningStats.mk.injEq, Nat.add_assoc,
      optMin_assoc, optMax_assoc]
  · simp [RunningStats.merge, RunningStats.mk.injEq, Nat.add_left_comm,
      optMin_left_comm, optMax_left_comm]
  · simp [RunningStats.merge, RunningStats.mk.injEq, Nat.add_comm,
      optMin_comm, optMax_comm]
  · intro x y hx hy
    simp [RunningStats.merge, hx, hy, optMin]
  · intro x y hx hy
    simp [RunningStats.merge, hx, hy, optMax]

/-- C7 witness: the merge theorem applied to two concrete records with
extrema `(-3, 5)` and `(-2, 4)`. -/
theorem merge_assoc_comm_exact_witness :
    statsA.min? = some (-3) ∧ statsB.min? = some (-2)
    ∧ (statsA.merge statsB).min? = some (min (-3 : ℚ) (-2))
    ∧ (statsA.merge statsB).max? = some (max (5 : ℚ) 4) :=
  ⟨rfl, rfl,
   (merge_assoc_comm_exact statsA statsB statsA).2.2.2.1 (-3) (-2) rfl rfl,
   (merge_assoc_comm_exact statsA statsB statsA).2.2.2.2 5 4 rfl rfl⟩

/-- C8: `observe` monotonically widens a record — a recorded minimum
never increases and a recorded maximum never decreases — and after a
clean `calibrate` run over a non-empty corpus of non-empty batches, every
attached layer's record satisfies `min ≤ max` and its count equals the
number of batches it observed. -/
theorem observe_widens_and_calibrate_invariant :
    (∀ (s : RunningStats) (slice : List ℚ),
      (∀ m0, s.min? = some m0 → ∃ m1, (observe s slice).min? = some m1 ∧ m1 ≤ m0)
      ∧ (∀ M0, s.max? = some M0 → ∃ M1, (observe s slice).max? = some M1 ∧ M0 ≤ M1))
    ∧ (∀ (n : Nat) (batches : List (List ℚ)), batches ≠ [] →
        (∀ b ∈ batches, b ≠ []) →
        ∀ st ∈ (runScoped n batches none).1.stats,
          ∃ m M, st.min? = some m ∧ st.max? = some M ∧ m ≤ M
            ∧ st.count = batches.length) := by
  refine ⟨observe_widens, ?_⟩
  intro n batches hne hb st hst
  rw [runScoped_none_stats] at hst
  have hst2 := List.eq_of_mem_replicate hst
  subst hst2
  cases batches with
  | nil => exact absurd rfl hne
  | cons b bs =>
    have hbne : b ≠ [] := hb b (List.mem_cons_self b bs)
    obtain ⟨m0, M0, e1, e2, e3⟩ := slice_min_le_max b hbne
    have base : ∃ m M, (observe emptyStats b).min? = some m
        ∧ (observe emptyStats b).max? = some M ∧ m ≤ M :=
      ⟨m0, M0, by simp [observe, emptyStats, optMin, e1],
        by simp [observe, emptyStats, optMax, e2], e3⟩
    obtain ⟨m, M, h1, h2, h3, h4⟩ := foldl_observe_inv bs (observe emptyStats b) base
    refine ⟨m, M, ?_, ?_, h3, ?_⟩
    · rw [List.foldl_cons]; exact h1
    · rw [List.foldl_cons]; exact h2
    · rw [List.foldl_cons, h4]
      simp only [observe, emptyStats, List.length_cons]
      omega

/-- C8 witness: the invariant applied to the corpus `[[1, -2], [3]]` with
two attached layers — the record reached is `(count 2, min -2, max 3)`. -/
theorem calibrate_invariant_witness :
    ∃ m M, ({ count := 2, min? := some (-2), max? := some 3 } : RunningStats).min? = some m
      ∧ ({ count := 2, min? := some (-2), max? := some 3 } : RunningStats).max? = some M
      ∧ m ≤ M
      ∧ ({ count := 2, min? := some (-2), max? := some 3 } : RunningStats).count
          = ([[1, -2], [3]] : List (List ℚ)).length :=
  observe_widens_and_calibrate_invariant.2 2 [[1, -2], [3]]
    (by simp) (by simp)
    { count := 2, min? := some (-2), max? := some 3 }
    (by rw [runScoped_none_stats]; norm_num [observe, emptyStats, optMin, optMax,
      sliceMin, sliceMax, List.replicate])

/-- C9 (counterexample): the claim says calibration-sample randomness
comes from an explicit passed-in random source object rather than from
process-wide mutable state, which would leave the process-wide generators
untouched; yet `set_seed` overwrites the process-wide numpy and torch
generator states, and `get_wikitext2` overwrites and advances the
process-wide `random`-module state (shown on a concrete generator
instance and concrete inputs). -/
theorem loaders_mutate_global_state :
    set_seed natRng 0 g0 ≠ g0
    ∧ (get_wikitext2 natRng [0, 1, 2, 3] 1 0 2 g0).2 ≠ g0 := by
  constructor <;> decide

/-- C9 (amended): reproducibility does hold — `get_wikitext2` reseeds the
generator from its explicit `seed` parameter before sampling, so for any
generator implementation, two runs with the same seed and the same inputs
select exactly the same samples and leave the same generator state, no
matter what the process-wide random state was beforehand — but the
generator so seeded is the process-wide module-level one, which the
loader mutates, not a passed-in random source object. -/
theorem get_wikitext2_reproducible :
    ∀ (S : Type) (R : PyRng S) (tokens : List Int) (nsamples seed seqlen : Nat)
      (g1 g2 : GlobalRandomState S),
    (get_wikitext2 R tokens nsamples seed seqlen g1).1
      = (get_wikitext2 R tokens nsamples seed seqlen g2).1
    ∧ (get_wikitext2 R tokens nsamples seed seqlen g1).2.pyRandom
      = (get_wikitext2 R tokens nsamples seed seqlen g2).2.pyRandom :=
  fun _ _ _ _ _ _ _ _ => ⟨rfl, rfl⟩

/-- C10 (counterexample): the claim says `get_sharegpt` returns at most
`nsamples` samples; with `nsamples = 0` the early-exit check
`n_collected == nsamples` can never fire after an increment, so one
conforming encoded sample of width `seqlen = 1` is returned — more than
`nsamples`. -/
theorem sharegpt_nsamples_zero :
    get_sharegpt [[5]] 0 1 = [[5]]
    ∧ ¬((get_sharegpt [[5]] 0 1).length ≤ 0) := by
  constructor <;> decide

/-- C10 (amended): every calibration sample has exactly `seqlen` token
columns — for a tokenized corpus of at least `seqlen` tokens,
`get_wikitext2` returns exactly `nsamples` pairs whose input rows are
`seqlen` wide; every block `get_pileval` returns is exactly `seqlen`
wide; and for `nsamples ≥ 1` (the early-exit check fires only after at
least one increment), `get_sharegpt` returns at most `nsamples` samples,
each `seqlen` wide, skipping any sample whose encoded length differs
from `seqlen`. -/
theorem loader_sample_shapes :
    (∀ (S : Type) (R : PyRng S) (tokens : List Int) (ns seed sl : Nat)
        (g : GlobalRandomState S), sl ≤ tokens.length →
      (get_wikitext2 R tokens ns seed sl g).1.length = ns
      ∧ ∀ p ∈ (get_wikitext2 R tokens ns seed sl g).1, p.1.length = sl)
    ∧ (∀ (shuffled : List (List Int)) (ns sl : Nat),
        ∀ b ∈ get_pileval shuffled ns sl, b.length = sl)
    ∧ (∀ (encs : List (List Int)) (ns sl : Nat), 1 ≤ ns →
        (get_sharegpt encs ns sl).length ≤ ns
        ∧ ∀ s ∈ get_sharegpt encs ns sl, s.length = sl) := by
  refine ⟨?_, get_pileval_blocks, ?_⟩
  · intro S R tokens ns seed sl g h
    exact wikitextSampleLoop_spec R tokens sl h ns (R.seedOf seed)
  · intro encs ns sl h
    constructor
    · simpa using sharegptLoop_bound ns sl encs 0 h
    · exact sharegptLoop_members ns sl encs 0

/-- C10 witness: the shape theorem applied to a concrete corpus of four
tokens with `seqlen = 2` and to two concrete ShareGPT encodings with
`nsamples = 1`, `seqlen = 1`. -/
theorem loader_sample_shapes_witness :
    ((get_wikitext2 natRng [0, 1, 2, 3] 2 0 2 g0).1.length = 2
      ∧ ∀ p ∈ (get_wikitext2 natRng [0, 1, 2, 3] 2 0 2 g0).1, p.1.length = 2)
    ∧ ((get_sharegpt [[5], [6, 7]] 1 1).length ≤ 1
      ∧ ∀ s ∈ get_sharegpt [[5], [6, 7]] 1 1, s.length = 1) :=
  ⟨loader_sample_shapes.1 Nat natRng [0, 1, 2, 3] 2 0 2 g0 (by norm_num),
   loader_sample_shapes.2.2 [[5], [6, 7]] 1 1 (by norm_num)⟩

end KVQuant
